import Mathlib

/-!
Verification of the go-search paged list-query builder.

Shallow embedding of the repository's three source files:

* the `rest` package file (PageInfo, SearchParams, ExtractSearchParamsFromUrl,
  SetTotalPages, EnsureSingleScope);
* `search/db.go` (JoinData, PagedQueryParameters, PagedQuery);
* `search/request.go` (a thin wrapper re-exporting the same extraction logic).

Go machine integers are modelled as `Int`; Go's `/` and `%` on integers
truncate toward zero, which is `Int.tdiv` / `Int.tmod` here.  Go string
operations (`strings.Split`, `strconv.Atoi`, `strconv.Itoa`,
`fmt.Sprintf` with `%s`) are modelled character-by-character so that all
definitions evaluate inside the kernel.  Fallible Go code (errors,
panics such as integer division by zero) is modelled with
`Option`/`Except`.  The database handle is modelled as an oracle record
supplying the outcome of each database call, so that the purely
syntactic clause-assembly phase of `PagedQuery` stays separate from the
transaction phase, exactly as in the source.
-/

namespace GoSearch

/-- The REST error values produced by `BadRequestError`,
`UnprocessableEntityError` and `ServerError` in the `rest` package; only
the client-visible message is modelled (the wrapped Go `error` cause is
dropped, the code never branches on it). -/
inductive RestError where
  | badRequest (msg : String)
  | unprocessableEntity (msg : String)
  | serverError (msg : String)
deriving DecidableEq, Repr

/-- Model of `PageInfo` from the `rest` package: 1-based page index, page size and
the two totals filled in after a query runs.  Go `int`/`int64` fields are
modelled as `Int`. -/
structure PageInfo where
  pageIndex : Int
  itemsPerPage : Int
  totalItemCount : Int
  totalPageCount : Int
deriving DecidableEq, Repr

/-- Model of `SearchParams` from the `rest` package.  The Go struct holds a
`*PageInfo`; every constructor in the sources fills it, so it is
modelled as a plain value. -/
structure SearchParams where
  scopes : List String
  terms : List String
  sort : String
  pageInfo : PageInfo
deriving DecidableEq, Repr

/-- Model of Go `strings.Split(s, sep)` for a single-character
separator, written over `List Char`: `acc` is the current chunk,
reversed. -/
def splitCharAux (sep : Char) : List Char → List Char → List String
  | [], acc => [String.mk acc.reverse]
  | c :: cs, acc =>
    if c = sep then String.mk acc.reverse :: splitCharAux sep cs []
    else splitCharAux sep cs (c :: acc)

/-- Go `strings.Split(s, string(sep))`. -/
def goSplit (s : String) (sep : Char) : List String :=
  splitCharAux sep s.toList []

/-- Digit accumulator for `goAtoi`: fails on any non-digit character. -/
def parseDigitsAux : List Char → Nat → Option Nat
  | [], acc => some acc
  | c :: cs, acc =>
    if c.isDigit then parseDigitsAux cs (acc * 10 + (c.toNat - '0'.toNat))
    else none

/-- A non-empty all-digit character list read as a natural number. -/
def parseDigits : List Char → Option Nat
  | [] => none
  | cs => parseDigitsAux cs 0

/-- Signed magnitude must fit a 64-bit Go `int`; out-of-range input makes
`strconv.Atoi` return an error. -/
def atoiInRange (v : Int) : Option Int :=
  if -(2 ^ 63) ≤ v ∧ v < 2 ^ 63 then some v else none

/-- Model of Go `strconv.Atoi`: optional sign, decimal digits, 64-bit
range check; `none` is Atoi's non-nil error. -/
def goAtoi (s : String) : Option Int :=
  match s.toList with
  | '-' :: rest => (parseDigits rest).bind fun n => atoiInRange (-(n : Int))
  | '+' :: rest => (parseDigits rest).bind fun n => atoiInRange (n : Int)
  | cs => (parseDigits cs).bind fun n => atoiInRange (n : Int)

/-- The raw request as seen through `r.FormValue`: Go's `FormValue`
returns `""` both for an absent field and for an explicitly empty one,
so each field is one string with `""` meaning absent. -/
structure RawRequest where
  scopes : String
  terms : String
  sort : String
  pageIndex : String
  itemsPerPage : String
deriving DecidableEq, Repr

/-- Model of `ExtractSearchParamsFromUrl` from the `rest` package (the copy in
`search/request.go` has the same body over the same types).  Parses
scopes/terms as comma-separated lists, takes the sort verbatim, defaults
a missing pageIndex to 1 and a missing itemsPerPage to 100, clamps a
supplied itemsPerPage into [20, 250], and fails with `BadRequestError`
when `strconv.Atoi` rejects either numeric field (pageIndex is parsed
first, so its error preempts an itemsPerPage error). -/
def ExtractSearchParamsFromUrl (r : RawRequest) : Except RestError SearchParams :=
  let scopes := if r.scopes ≠ "" then goSplit r.scopes ',' else []
  let terms := if r.terms ≠ "" then goSplit r.terms ',' else []
  let sort := r.sort
  let pageIndexE : Except RestError Int :=
    if r.pageIndex ≠ "" then
      match goAtoi r.pageIndex with
      | none => .error (.badRequest ("Could not parse pageIndex: " ++ r.pageIndex))
      | some v => .ok v
    else .ok 1
  match pageIndexE with
  | .error e => .error e
  | .ok pageIndex =>
    let itemsPerPageE : Except RestError Int :=
      if r.itemsPerPage ≠ "" then
        match goAtoi r.itemsPerPage with
        | none => .error (.badRequest ("Could not parse itemsPerPage: " ++ r.itemsPerPage))
        | some v => .ok (if v < 20 then 20 else if v > 250 then 250 else v)
      else .ok 100
    match itemsPerPageE with
    | .error e => .error e
    | .ok itemsPerPage =>
      .ok { scopes := scopes, terms := terms, sort := sort,
            pageInfo := { pageIndex := pageIndex, itemsPerPage := itemsPerPage,
                          totalItemCount := 0, totalPageCount := 0 } }

/-- Model of `EnsureSingleScope` from the `rest` package. -/
def EnsureSingleScope (sp : SearchParams) : Option RestError :=
  if sp.scopes.length > 1 then
    some (.badRequest "We currently only support a single scope.")
  else if sp.scopes.length = 0 then
    some (.badRequest "No scope specified.")
  else none

/-- Model of `SetTotalPages` from the `rest` package: replaces the `PageInfo`
with one carrying the same pageIndex/itemsPerPage, the given count, and
`count / itemsPerPage` (+1 when the remainder is positive) as the page
count, using Go's truncated integer division.  `itemsPerPage = 0` makes
the Go code panic with a division by zero, modelled as `none`. -/
def SetTotalPages (sp : SearchParams) (count : Int) : Option SearchParams :=
  let itemsPerPage := sp.pageInfo.itemsPerPage
  let pageIndex := sp.pageInfo.pageIndex
  if itemsPerPage = 0 then none
  else
    let pageCount := Int.tdiv count itemsPerPage
    let pageCount := if Int.tmod count itemsPerPage > 0 then pageCount + 1 else pageCount
    some { sp with pageInfo := { pageIndex := pageIndex, itemsPerPage := itemsPerPage,
                                 totalItemCount := count, totalPageCount := pageCount } }

/-! ## `search/db.go` -/

/-- The view of a `JoinData` that a `JoinTest` callback can inspect: its
clause fragments and bound parameters.  (Passing the full `JoinData`
would make `JoinData` occur negatively in its own `joinTest` field; no
test in the sources can do more with the extra field than compare it to
`nil`, which none does.)  `π` is the type of Go's `interface{}` bound
parameter values. -/
structure JoinView (π : Type) where
  joinClause : String
  whereClause : String
  joinParams : List π
deriving Repr

/-- Model of `JoinData` from `search/db.go`: join fragment, where fragment, bound
parameters, and an optional `JoinTest` which, given the context joins,
may veto the default join fragment and substitute an override. -/
structure JoinData (π : Type) where
  joinClause : String
  whereClause : String
  joinParams : List π
  joinTest : Option (List (JoinView π) → Bool × String) := none

/-- The clause/parameter view of a `JoinData`, as handed to join tests. -/
def JoinData.view (j : JoinData π) : JoinView π :=
  { joinClause := j.joinClause, whereClause := j.whereClause, joinParams := j.joinParams }

/-- Model of `PagedQueryParameters` from `search/db.go`.  The Go
`map[string]JoinData` and `map[string]string` fields are association
lists with unique keys looked up by `List.lookup` (the code only ever
looks maps up, never iterates them).  `WhereBitGenerator` returns a
WHERE fragment and the updated parameter list, or a Go error (its
message, which the caller discards).  `ρ` is the result type produced by
the `ResultBuilder`, `σ` the type of a row set.  The `Db`/`Context`
plumbing fields live in the `DbOracle` below. -/
structure PagedQueryParameters (π ρ σ : Type) where
  fieldSpec : String
  generalFrom : String
  scopeJoins : List (String × JoinData π)
  searchWhereGenerator : String → List π → Except String (String × List π)
  sortMap : List (String × String)
  resultBuilder : σ → Except String ρ
  resourceName : String
  searchParams : SearchParams

/-- The scope loop of `PagedQuery` (db.go lines 94–111): for each scope
in order, look it up in the scope-join map — an unknown scope returns
`BadRequestError` whose message interpolates `SearchParams.Scopes[0]`
(`firstScope` here; the loop only runs when the scope list is non-empty,
so `Scopes[0]` exists) — then extend the FROM clause with the scope's
join fragment, or with the join test's override when the test fires, and
extend the WHERE clause and parameter list. -/
def scopeLoop (scopeJoins : List (String × JoinData π)) (firstScope : String)
    (contextJoins : List (JoinView π)) :
    List String → String → String → List π → Except RestError (String × String × List π)
  | [], fromBit, whereBit, params => .ok (fromBit, whereBit, params)
  | scope :: rest, fromBit, whereBit, params =>
    match (scopeJoins.lookup scope : Option (JoinData π)) with
    | none => .error (.badRequest ("Found unknown scope: '" ++ firstScope ++ "'."))
    | some val =>
      let fromBit' :=
        match val.joinTest with
        | none => fromBit ++ val.joinClause
        | some test =>
          let (useIt, override) := test contextJoins
          if useIt then fromBit ++ override else fromBit ++ val.joinClause
      scopeLoop scopeJoins firstScope contextJoins rest
        fromBit' (whereBit ++ val.whereClause) (params ++ val.joinParams)

/-- The search-term loop of `PagedQuery` (db.go lines 113–122): each
term is fed, with the current parameter list, to the
`SearchWhereGenerator`; a generator error becomes `BadRequestError`
naming the term, otherwise the produced fragment extends the WHERE
clause and the returned list replaces the parameters. -/
def termLoop (gen : String → List π → Except String (String × List π)) :
    List String → String → List π → Except RestError (String × List π)
  | [], whereBit, params => .ok (whereBit, params)
  | term :: rest, whereBit, params =>
    match gen term params with
    | .error _ => .error (.badRequest ("Could not process search term: '" ++ term ++ "'."))
    | .ok (whereTerm, params') => termLoop gen rest (whereBit ++ whereTerm) params'

/-- The assembled statement: the accumulated clause pieces and the final
joined statement text with its ordered bound parameters. -/
structure Assembled (π : Type) where
  fromBit : String
  whereBit : String
  limitAndOrderBy : String
  stmt : String
  params : List π
deriving Repr, DecidableEq

/-- The clause-assembly phase of `PagedQuery` (db.go lines 82–151),
everything before `BeginTx`: seed FROM with `GeneralFrom` and WHERE with
the `"WHERE TRUE "` tautology, fold the context joins in caller order,
run the scope loop and the term loop, resolve ORDER BY from the sort map
(an unknown sort key, the empty string included, is
`UnprocessableEntityError`), append `LIMIT (pageIndex-1)*itemsPerPage,
itemsPerPage`, drop a still-untouched WHERE, and join the pieces. -/
def PagedQueryAssemble (pqp : PagedQueryParameters π ρ σ)
    (contextJoins : List (JoinData π)) : Except RestError (Assembled π) :=
  let fromBit1 := contextJoins.foldl (fun f j => f ++ j.joinClause) pqp.generalFrom
  let whereBit1 := contextJoins.foldl (fun w j => w ++ j.whereClause) "WHERE TRUE "
  let params1 := contextJoins.foldl (fun p j => p ++ j.joinParams) ([] : List π)
  match scopeLoop pqp.scopeJoins (pqp.searchParams.scopes.headD "")
      (contextJoins.map JoinData.view) pqp.searchParams.scopes fromBit1 whereBit1 params1 with
  | .error e => .error e
  | .ok (fromBit2, whereBit2, params2) =>
    match termLoop pqp.searchWhereGenerator pqp.searchParams.terms whereBit2 params2 with
    | .error e => .error e
    | .ok (whereBit3, params3) =>
      let pageIndex := pqp.searchParams.pageInfo.pageIndex - 1
      let itemsPerPage := pqp.searchParams.pageInfo.itemsPerPage
      match (pqp.sortMap.lookup pqp.searchParams.sort : Option String) with
      | none => .error (.unprocessableEntity
          ("Bad sort value: '" ++ pqp.searchParams.sort ++ "'."))
      | some sortClause =>
        let limitAndOrderBy := "ORDER BY " ++ sortClause ++ "LIMIT "
          ++ toString (pageIndex * itemsPerPage) ++ ", " ++ toString itemsPerPage
        let whereBit4 := if whereBit3 = "WHERE TRUE " then "" else whereBit3
        let stmt := "SELECT DISTINCT SQL_CALC_FOUND_ROWS " ++ pqp.fieldSpec
          ++ fromBit2 ++ whereBit4 ++ limitAndOrderBy
        .ok { fromBit := fromBit2, whereBit := whereBit4,
              limitAndOrderBy := limitAndOrderBy, stmt := stmt, params := params3 }

/-- The `FOUND_ROWS()` row cursor: whether `Next()` yields a row, and
what `Scan` into an `int64` produces. -/
structure CountRows where
  hasNext : Bool
  scanned : Except String Int

/-- Oracle for the database interactions of `PagedQuery` (db.go lines
160–211): the outcome of `BeginTx`, of preparing a given statement, of
running it with given parameters (yielding a row set `σ`), and of the
`SELECT FOUND_ROWS()` query.  Errors carry the Go error message. -/
structure DbOracle (π σ : Type) where
  beginTx : Except String Unit
  prepare : String → Except String Unit
  runQuery : List π → Except String σ
  foundRows : Except String CountRows

/-- Model of `PagedQuery` from `search/db.go`, returning Go's
`(interface{}, int64, RestError)` triple as
`(Option ρ × Int × Option RestError)`.  Clause-assembly errors return
count −1 before any database call; after assembly the transaction phase
runs against the oracle, every failure returning count 0 and a
`ServerError` naming the resource.  (When `BeginTx` itself fails the Go
code calls `Rollback` on the nil transaction handle before reaching its
`return`; the modelled value is the triple that `return` produces.) -/
def PagedQuery (pqp : PagedQueryParameters π ρ σ) (contextJoins : List (JoinData π))
    (db : DbOracle π σ) : Option ρ × Int × Option RestError :=
  match PagedQueryAssemble pqp contextJoins with
  | .error e => (none, -1, some e)
  | .ok asm =>
    match db.beginTx with
    | .error _ => (none, 0, some (.serverError ("Could not retrieve " ++ pqp.resourceName ++ ".")))
    | .ok _ =>
      match db.prepare asm.stmt with
      | .error _ => (none, 0, some (.serverError ("Could not process " ++ pqp.resourceName ++ " query.")))
      | .ok _ =>
        match db.runQuery asm.params with
        | .error _ => (none, 0, some (.serverError ("Could not retrieve " ++ pqp.resourceName ++ ".")))
        | .ok rows =>
          match pqp.resultBuilder rows with
          | .error _ => (none, 0, some (.serverError ("Could not retrieve " ++ pqp.resourceName ++ ".")))
          | .ok results =>
            match db.foundRows with
            | .error _ => (none, 0, some (.serverError ("Could not retrieve " ++ pqp.resourceName ++ ".")))
            | .ok countRows =>
              if !countRows.hasNext then
                (none, 0, some (.serverError ("Could not retrieve " ++ pqp.resourceName ++ ".")))
              else
                match countRows.scanned with
                | .error _ => (none, 0, some (.serverError ("Could not retrieve " ++ pqp.resourceName ++ ".")))
                | .ok count => (some results, count, none)

/-! ## Concrete instances used by witnesses and counterexamples -/

/-- A page-1, 20-per-page `SearchParams`. -/
def spW : SearchParams :=
  { scopes := [], terms := [], sort := "",
    pageInfo := { pageIndex := 1, itemsPerPage := 20, totalItemCount := 0, totalPageCount := 0 } }

/-- A page-3, 20-per-page `SearchParams`. -/
def spW8 : SearchParams :=
  { scopes := [], terms := [], sort := "",
    pageInfo := { pageIndex := 3, itemsPerPage := 20, totalItemCount := 0, totalPageCount := 0 } }

/-- The value of `spW8` after `SetTotalPages` with count 45 (45 = 2·20 + 5, so 3 pages). -/
def spW8out : SearchParams :=
  { scopes := [], terms := [], sort := "",
    pageInfo := { pageIndex := 3, itemsPerPage := 20, totalItemCount := 45, totalPageCount := 3 } }

/-- The raw request refuting "pageIndex ≥ 1 after construction": a supplied
pageIndex of `"0"` parses and is accepted unchanged. -/
def req9 : RawRequest :=
  { scopes := "", terms := "", sort := "", pageIndex := "0", itemsPerPage := "" }

/-- What `ExtractSearchParamsFromUrl` returns on `req9`. -/
def sp9 : SearchParams :=
  { scopes := [], terms := [], sort := "",
    pageInfo := { pageIndex := 0, itemsPerPage := 100, totalItemCount := 0, totalPageCount := 0 } }

/-- A raw request supplying itemsPerPage below the lower bound. -/
def reqW3 : RawRequest :=
  { scopes := "", terms := "", sort := "", pageIndex := "", itemsPerPage := "5" }

/-- What `ExtractSearchParamsFromUrl` returns on `reqW3`: 5 clamps to 20. -/
def spW3 : SearchParams :=
  { scopes := [], terms := [], sort := "",
    pageInfo := { pageIndex := 1, itemsPerPage := 20, totalItemCount := 0, totalPageCount := 0 } }

/-- A raw request supplying an unparseable itemsPerPage. -/
def reqBad3 : RawRequest :=
  { scopes := "", terms := "", sort := "", pageIndex := "", itemsPerPage := "12x" }

/-- Right-fold concatenation of string fragments, used to state the
clause-accumulation order. -/
def strConcat (l : List String) : String := l.foldr (· ++ ·) ""

/-- A plain context/scope join on table `a` with one bound parameter. -/
def jdA : JoinData Nat :=
  { joinClause := "JOIN a ", whereClause := "AND a.x=? ", joinParams := [7] }

/-- A scope join whose join-test fires (returning the override fragment)
exactly when one context join is present. -/
def jdT : JoinData Nat :=
  { joinClause := "JOIN d ", whereClause := "AND d.y=? ", joinParams := [3],
    joinTest := some (fun ctx => (ctx.length == 1, "OVERRIDE ")) }

/-- An oracle whose every database call succeeds, with 45 found rows. -/
def okDb : DbOracle Nat Nat :=
  { beginTx := .ok (), prepare := fun _ => .ok (), runQuery := fun _ => .ok 0,
    foundRows := .ok { hasNext := true, scanned := .ok 45 } }

/-- An oracle whose every database call fails. -/
def failDb : DbOracle Nat Nat :=
  { beginTx := .error "down", prepare := fun _ => .error "down",
    runQuery := fun _ => .error "down", foundRows := .error "down" }

/-- Descriptor + params whose scope list is `["a", "b"]` with only `"a"`
known: the unknown-scope error message interpolates `Scopes[0]` = `"a"`,
the known scope, not `"b"`. -/
def pqpC1 : PagedQueryParameters Nat Nat Nat :=
  { fieldSpec := "t.* ", generalFrom := "FROM t ",
    scopeJoins := [("a", jdA)],
    searchWhereGenerator := fun term ps => .ok ("AND t.n LIKE ? ", ps ++ [term.length]),
    sortMap := [("", "t.id ")],
    resultBuilder := fun n => .ok n,
    resourceName := "things",
    searchParams := { scopes := ["a", "b"], terms := [], sort := "",
                      pageInfo := { pageIndex := 2, itemsPerPage := 20, totalItemCount := 0, totalPageCount := 0 } } }

/-- Descriptor + params with an unknown scope AND an unknown sort key:
the scope loop runs first, so the caller-input error wins. -/
def pqpC5 : PagedQueryParameters Nat Nat Nat :=
  { fieldSpec := "t.* ", generalFrom := "FROM t ",
    scopeJoins := [],
    searchWhereGenerator := fun term ps => .ok ("AND t.n LIKE ? ", ps ++ [term.length]),
    sortMap := [],
    resultBuilder := fun n => .ok n,
    resourceName := "things",
    searchParams := { scopes := ["x"], terms := [], sort := "date",
                      pageInfo := { pageIndex := 1, itemsPerPage := 20, totalItemCount := 0, totalPageCount := 0 } } }

/-- Descriptor + params with known scope and terms but an unknown sort key. -/
def pqpW5 : PagedQueryParameters Nat Nat Nat :=
  { fieldSpec := "t.* ", generalFrom := "FROM t ",
    scopeJoins := [("a", jdA)],
    searchWhereGenerator := fun term ps => .ok ("AND t.n LIKE ? ", ps ++ [term.length]),
    sortMap := [("", "t.id ")],
    resultBuilder := fun n => .ok n,
    resourceName := "things",
    searchParams := { scopes := ["a"], terms := [], sort := "date",
                      pageInfo := { pageIndex := 1, itemsPerPage := 20, totalItemCount := 0, totalPageCount := 0 } } }

/-- Descriptor + params on which clause assembly fully succeeds. -/
def pqpW : PagedQueryParameters Nat Nat Nat :=
  { fieldSpec := "t.* ", generalFrom := "FROM t ",
    scopeJoins := [("a", jdA)],
    searchWhereGenerator := fun term ps => .ok ("AND t.n LIKE ? ", ps ++ [term.length]),
    sortMap := [("", "t.id ")],
    resultBuilder := fun n => .ok n,
    resourceName := "things",
    searchParams := { scopes := ["a"], terms := ["w"], sort := "",
                      pageInfo := { pageIndex := 2, itemsPerPage := 20, totalItemCount := 0, totalPageCount := 0 } } }

/-- What `PagedQueryAssemble` produces on `pqpW` with no context joins. -/
def asmW : Assembled Nat :=
  { fromBit := "FROM t JOIN a ",
    whereBit := "WHERE TRUE AND a.x=? AND t.n LIKE ? ",
    limitAndOrderBy := "ORDER BY t.id LIMIT 20, 20",
    stmt := "SELECT DISTINCT SQL_CALC_FOUND_ROWS t.* FROM t JOIN a WHERE TRUE AND a.x=? AND t.n LIKE ? ORDER BY t.id LIMIT 20, 20",
    params := [7, 1] }

/-- Descriptor + params whose search-term generator rejects every term. -/
def pqpC10 : PagedQueryParameters Nat Nat Nat :=
  { fieldSpec := "t.* ", generalFrom := "FROM t ",
    scopeJoins := [("a", jdA)],
    searchWhereGenerator := fun _ _ => .error "boom",
    sortMap := [("", "t.id ")],
    resultBuilder := fun n => .ok n,
    resourceName := "things",
    searchParams := { scopes := ["a"], terms := ["w"], sort := "",
                      pageInfo := { pageIndex := 1, itemsPerPage := 20, totalItemCount := 0, totalPageCount := 0 } } }

/-! ## Shared arithmetic helper -/

/-- Quotient-remainder form of the ceiling identity. -/
theorem ceil_aux (q r m : Int) (hm : 0 < m) (hr0 : 0 ≤ r) (hrm : r < m) :
    q + (if 0 < r then 1 else 0) = (m * q + r + m - 1) / m := by
  rcases lt_or_eq_of_le hr0 with hrpos | hrzero
  · rw [if_pos hrpos]
    have he : m * q + r + m - 1 = (r - 1) + (q + 1) * m := by ring
    rw [he, Int.add_mul_ediv_right _ _ (by omega : m ≠ 0),
      Int.ediv_eq_zero_of_lt (by omega) (by omega), zero_add]
  · rw [if_neg (by omega)]
    have he : m * q + r + m - 1 = (m - 1) + q * m := by rw [← hrzero]; ring
    rw [he, Int.add_mul_ediv_right _ _ (by omega : m ≠ 0),
      Int.ediv_eq_zero_of_lt (by omega) (by omega), zero_add, add_zero]

/-- The source's `count/itemsPerPage, +1 if remainder > 0` recipe computes the
ceiling of `count / m` (in its `(count + m - 1) / m` integer form) for a
nonnegative count and a positive page size. -/
theorem tdiv_succ_eq_ceil (count m : Int) (hc : 0 ≤ count) (hm : 0 < m) :
    Int.tdiv count m + (if 0 < Int.tmod count m then 1 else 0)
      = (count + m - 1) / m := by
  rw [Int.tdiv_eq_ediv hc (le_of_lt hm), Int.tmod_eq_emod hc (le_of_lt hm)]
  have hm0 : m ≠ 0 := by omega
  have hr0 : 0 ≤ count % m := Int.emod_nonneg count hm0
  have hrm : count % m < m := Int.emod_lt_of_pos count hm
  conv_rhs => rw [← Int.ediv_add_emod count m]
  exact ceil_aux (count / m) (count % m) m hm hr0 hrm

/-- C2: for every count ≥ 0 and itemsPerPage > 0, `SetTotalPages` succeeds,
stores the count as totalItemCount, and stores as totalPageCount the value
`count/itemsPerPage` plus 1 exactly when the remainder is positive — which
equals `⌈count / itemsPerPage⌉`, in its `(count + itemsPerPage - 1) /
itemsPerPage` integer form. -/
theorem SetTotalPages_ceil (sp : SearchParams) (count : Int)
    (hc : 0 ≤ count) (hipp : 0 < sp.pageInfo.itemsPerPage) :
    (SetTotalPages sp count).isSome = true ∧
    ∀ sp', SetTotalPages sp count = some sp' →
      sp'.pageInfo.totalItemCount = count ∧
      sp'.pageInfo.totalPageCount =
        Int.tdiv count sp.pageInfo.itemsPerPage +
          (if 0 < Int.tmod count sp.pageInfo.itemsPerPage then 1 else 0) ∧
      sp'.pageInfo.totalPageCount =
        (count + sp.pageInfo.itemsPerPage - 1) / sp.pageInfo.itemsPerPage := by
  have hm0 : sp.pageInfo.itemsPerPage ≠ 0 := by omega
  constructor
  · simp [SetTotalPages, hm0]
  · intro sp' h
    simp only [SetTotalPages, hm0, if_false, Option.some.injEq] at h
    subst h
    have hpc : (if Int.tmod count sp.pageInfo.itemsPerPage > 0
          then Int.tdiv count sp.pageInfo.itemsPerPage + 1
          else Int.tdiv count sp.pageInfo.itemsPerPage)
        = Int.tdiv count sp.pageInfo.itemsPerPage +
          (if 0 < Int.tmod count sp.pageInfo.itemsPerPage then 1 else 0) := by
      by_cases hr : 0 < Int.tmod count sp.pageInfo.itemsPerPage
      · rw [if_pos hr, if_pos hr]
      · rw [if_neg hr, if_neg hr, add_zero]
    exact ⟨rfl, hpc, hpc.trans (tdiv_succ_eq_ceil count sp.pageInfo.itemsPerPage hc hipp)⟩

/-- C2 witness: the claim's own examples — count 101 at 20 per page gives 6
pages, 100 gives 5, 0 gives 0 — with the theorem applied at count 101. -/
theorem SetTotalPages_ceil_witness :
    ((SetTotalPages spW 101).isSome = true ∧
      ∀ sp', SetTotalPages spW 101 = some sp' →
        sp'.pageInfo.totalItemCount = 101 ∧
        sp'.pageInfo.totalPageCount =
          Int.tdiv 101 spW.pageInfo.itemsPerPage +
            (if 0 < Int.tmod 101 spW.pageInfo.itemsPerPage then 1 else 0) ∧
        sp'.pageInfo.totalPageCount =
          (101 + spW.pageInfo.itemsPerPage - 1) / spW.pageInfo.itemsPerPage) ∧
    (SetTotalPages spW 101).map (fun sp' => sp'.pageInfo.totalPageCount) = some 6 ∧
    (SetTotalPages spW 100).map (fun sp' => sp'.pageInfo.totalPageCount) = some 5 ∧
    (SetTotalPages spW 0).map (fun sp' => sp'.pageInfo.totalPageCount) = some 0 :=
  ⟨SetTotalPages_ceil spW 101 (by decide) (by decide), rfl, rfl, rfl⟩

/-- C8: applying `SetTotalPages` twice with the same count equals
applying it once (stated with `Option.bind`, which also covers the
itemsPerPage = 0 input on which the Go code panics instead of
returning), and whatever it returns keeps the pageIndex and itemsPerPage
fields unchanged. -/
theorem SetTotalPages_idempotent_frame (sp : SearchParams) (count : Int) :
    (SetTotalPages sp count).bind (fun sp1 => SetTotalPages sp1 count)
      = SetTotalPages sp count ∧
    ∀ sp₁, SetTotalPages sp count = some sp₁ →
      sp₁.pageInfo.pageIndex = sp.pageInfo.pageIndex ∧
      sp₁.pageInfo.itemsPerPage = sp.pageInfo.itemsPerPage := by
  by_cases hm : sp.pageInfo.itemsPerPage = 0
  · constructor
    · simp [SetTotalPages, hm]
    · intro sp₁ h
      simp [SetTotalPages, hm] at h
  · constructor
    · simp [SetTotalPages, hm]
    · intro sp₁ h
      simp only [SetTotalPages, hm, if_false, Option.some.injEq] at h
      subst h
      exact ⟨rfl, rfl⟩

/-- C8 witness: the theorem applied to a concrete page (index 3, 20 per
page) and count 45, whose result `spW8out` is a fixed point with frame
intact. -/
theorem SetTotalPages_idempotent_frame_witness :
    (SetTotalPages spW8 45).bind (fun sp1 => SetTotalPages sp1 45)
      = SetTotalPages spW8 45 ∧
    SetTotalPages spW8 45 = some spW8out ∧
    spW8out.pageInfo.pageIndex = spW8.pageInfo.pageIndex ∧
    spW8out.pageInfo.itemsPerPage = spW8.pageInfo.itemsPerPage :=
  ⟨(SetTotalPages_idempotent_frame spW8 45).1, rfl,
    ((SetTotalPages_idempotent_frame spW8 45).2 spW8out rfl).1,
    ((SetTotalPages_idempotent_frame spW8 45).2 spW8out rfl).2⟩

/-! ## `ExtractSearchParamsFromUrl` -/

theorem goAtoi_empty : goAtoi "" = none := rfl

/-- Shape of every successful extraction: totals are zero, pageIndex is 1
or the parsed raw value, itemsPerPage is 100 or the clamped parsed raw
value. -/
theorem extract_ok_shape (r : RawRequest) (sp : SearchParams)
    (h : ExtractSearchParamsFromUrl r = .ok sp) :
    sp.pageInfo.totalItemCount = 0 ∧ sp.pageInfo.totalPageCount = 0 ∧
    ((r.pageIndex = "" ∧ sp.pageInfo.pageIndex = 1) ∨
      goAtoi r.pageIndex = some sp.pageInfo.pageIndex) ∧
    ((r.itemsPerPage = "" ∧ sp.pageInfo.itemsPerPage = 100) ∨
      (∃ n, goAtoi r.itemsPerPage = some n ∧
        sp.pageInfo.itemsPerPage = if n < 20 then 20 else if n > 250 then 250 else n)) := by
  by_cases hpi : r.pageIndex = ""
  · by_cases hii : r.itemsPerPage = ""
    · simp only [ExtractSearchParamsFromUrl, hpi, hii, ne_eq, not_true_eq_false, if_false,
        Except.ok.injEq] at h
      subst h
      exact ⟨rfl, rfl, Or.inl ⟨hpi, rfl⟩, Or.inl ⟨hii, rfl⟩⟩
    · rcases hA : goAtoi r.itemsPerPage with _ | n
      · simp only [ExtractSearchParamsFromUrl, hpi, hii, hA, ne_eq, not_true_eq_false, if_false,
          not_false_eq_true, if_true] at h
        exact Except.noConfusion h
      · simp only [ExtractSearchParamsFromUrl, hpi, hii, hA, ne_eq, not_true_eq_false, if_false,
          not_false_eq_true, if_true, Except.ok.injEq] at h
        subst h
        exact ⟨rfl, rfl, Or.inl ⟨hpi, rfl⟩, Or.inr ⟨n, rfl, rfl⟩⟩
  · rcases hB : goAtoi r.pageIndex with _ | v
    · simp only [ExtractSearchParamsFromUrl, hpi, hB, ne_eq, not_false_eq_true, if_true] at h
      exact Except.noConfusion h
    · by_cases hii : r.itemsPerPage = ""
      · simp only [ExtractSearchParamsFromUrl, hpi, hii, hB, ne_eq, not_false_eq_true, if_true,
          not_true_eq_false, if_false, Except.ok.injEq] at h
        subst h
        exact ⟨rfl, rfl, Or.inr rfl, Or.inl ⟨hii, rfl⟩⟩
      · rcases hA : goAtoi r.itemsPerPage with _ | n
        · simp only [ExtractSearchParamsFromUrl, hpi, hii, hA, hB, ne_eq, not_false_eq_true,
            if_true] at h
          exact Except.noConfusion h
        · simp only [ExtractSearchParamsFromUrl, hpi, hii, hA, hB, ne_eq, not_false_eq_true,
            if_true, Except.ok.injEq] at h
          subst h
          exact ⟨rfl, rfl, Or.inr rfl, Or.inr ⟨n, rfl, rfl⟩⟩

/-- Shape of every failed extraction: the error is `BadRequestError`
naming either the raw pageIndex or the raw itemsPerPage. -/
theorem extract_error_shape (r : RawRequest) (e : RestError)
    (h : ExtractSearchParamsFromUrl r = .error e) :
    e = .badRequest ("Could not parse pageIndex: " ++ r.pageIndex) ∨
    e = .badRequest ("Could not parse itemsPerPage: " ++ r.itemsPerPage) := by
  by_cases hpi : r.pageIndex = ""
  · by_cases hii : r.itemsPerPage = ""
    · simp only [ExtractSearchParamsFromUrl, hpi, hii, ne_eq, not_true_eq_false, if_false] at h
      exact Except.noConfusion h
    · rcases hA : goAtoi r.itemsPerPage with _ | n
      · simp only [ExtractSearchParamsFromUrl, hpi, hii, hA, ne_eq, not_true_eq_false, if_false,
          not_false_eq_true, if_true, Except.error.injEq] at h
        exact Or.inr h.symm
      · simp only [ExtractSearchParamsFromUrl, hpi, hii, hA, ne_eq, not_true_eq_false, if_false,
          not_false_eq_true, if_true] at h
        exact Except.noConfusion h
  · rcases hB : goAtoi r.pageIndex with _ | v
    · simp only [ExtractSearchParamsFromUrl, hpi, hB, ne_eq, not_false_eq_true, if_true,
        Except.error.injEq] at h
      exact Or.inl h.symm
    · by_cases hii : r.itemsPerPage = ""
      · simp only [ExtractSearchParamsFromUrl, hpi, hii, hB, ne_eq, not_false_eq_true, if_true,
          not_true_eq_false, if_false] at h
        exact Except.noConfusion h
      · rcases hA : goAtoi r.itemsPerPage with _ | n
        · simp only [ExtractSearchParamsFromUrl, hpi, hii, hA, hB, ne_eq, not_false_eq_true,
            if_true, Except.error.injEq] at h
          exact Or.inr h.symm
        · simp only [ExtractSearchParamsFromUrl, hpi, hii, hA, hB, ne_eq, not_false_eq_true,
            if_true] at h
          exact Except.noConfusion h

/-- C3: itemsPerPage normalization — absent defaults to 100; a parseable
value is clamped below to 20 and above to 250 and kept inside [20, 250];
an unparseable value makes extraction fail with a `BadRequestError`
naming the offending field and its raw value (the pageIndex field is
parsed first, so its own such error can preempt the itemsPerPage one). -/
theorem Extract_itemsPerPage_normalization (r : RawRequest) :
    (∀ sp, ExtractSearchParamsFromUrl r = .ok sp →
      (r.itemsPerPage = "" → sp.pageInfo.itemsPerPage = 100) ∧
      (∀ n, goAtoi r.itemsPerPage = some n →
        sp.pageInfo.itemsPerPage = if n < 20 then 20 else if n > 250 then 250 else n)) ∧
    (r.itemsPerPage ≠ "" → goAtoi r.itemsPerPage = none →
      ExtractSearchParamsFromUrl r
          = .error (.badRequest ("Could not parse pageIndex: " ++ r.pageIndex)) ∨
      ExtractSearchParamsFromUrl r
          = .error (.badRequest ("Could not parse itemsPerPage: " ++ r.itemsPerPage))) := by
  constructor
  · intro sp hsp
    obtain ⟨-, -, -, hitems⟩ := extract_ok_shape r sp hsp
    constructor
    · intro hii
      rcases hitems with ⟨-, h100⟩ | ⟨n, hn, -⟩
      · exact h100
      · rw [hii, goAtoi_empty] at hn
        exact absurd hn (by simp)
    · intro n hn
      rcases hitems with ⟨hii, -⟩ | ⟨n', hn', hclamp⟩
      · rw [hii, goAtoi_empty] at hn
        exact absurd hn (by simp)
      · rw [hn] at hn'
        cases hn'
        exact hclamp
  · intro hii hA
    rcases hE : ExtractSearchParamsFromUrl r with e | sp
    · rcases extract_error_shape r e hE with h1 | h2
      · exact Or.inl (by rw [h1])
      · exact Or.inr (by rw [h2])
    · obtain ⟨-, -, -, hitems⟩ := extract_ok_shape r sp hE
      rcases hitems with ⟨h1, -⟩ | ⟨n, hn, -⟩
      · exact absurd h1 hii
      · rw [hA] at hn
        exact absurd hn (by simp)

/-- C3 witness: itemsPerPage `"5"` is clamped to exactly 20 (via the
theorem), and itemsPerPage `"12x"` fails naming the field and value. -/
theorem Extract_itemsPerPage_normalization_witness :
    ExtractSearchParamsFromUrl reqW3 = .ok spW3 ∧
    spW3.pageInfo.itemsPerPage = 20 ∧
    ExtractSearchParamsFromUrl reqBad3
      = .error (.badRequest "Could not parse itemsPerPage: 12x") :=
  ⟨rfl,
    by
      have h := ((Extract_itemsPerPage_normalization reqW3).1 spW3 rfl).2 5 rfl
      simpa using h,
    rfl⟩

/-- C9 counterexample: a raw pageIndex of `"0"` is parsed and accepted, so
construction succeeds with pageIndex 0, violating "pageIndex ≥ 1". -/
theorem extract_accepts_nonpositive_pageIndex :
    ExtractSearchParamsFromUrl req9 = .ok sp9 ∧ ¬ 1 ≤ sp9.pageInfo.pageIndex :=
  ⟨rfl, by decide⟩

/-- C9 as amended: every successful construction has itemsPerPage ≥ 1 and
zero totals; pageIndex is 1 when the raw field is absent, but a supplied
parseable value — positive or not — is accepted unchanged. -/
theorem Extract_pageInfo_invariant (r : RawRequest) (sp : SearchParams)
    (h : ExtractSearchParamsFromUrl r = .ok sp) :
    1 ≤ sp.pageInfo.itemsPerPage ∧
    sp.pageInfo.totalItemCount = 0 ∧ sp.pageInfo.totalPageCount = 0 ∧
    (r.pageIndex = "" → sp.pageInfo.pageIndex = 1) ∧
    (∀ n, goAtoi r.pageIndex = some n → sp.pageInfo.pageIndex = n) := by
  obtain ⟨h0, h0', hpage, hitems⟩ := extract_ok_shape r sp h
  refine ⟨?_, h0, h0', ?_, ?_⟩
  · rcases hitems with ⟨-, h100⟩ | ⟨n, -, hcl⟩
    · omega
    · rw [hcl]; split
      · omega
      · split <;> omega
  · intro hpi
    rcases hpage with ⟨-, h1⟩ | hB
    · exact h1
    · rw [hpi, goAtoi_empty] at hB
      exact absurd hB (by simp)
  · intro n hn
    rcases hpage with ⟨hpi, -⟩ | hB
    · rw [hpi, goAtoi_empty] at hn
      exact absurd hn (by simp)
    · rw [hn] at hB
      cases hB
      rfl

/-- C9 witness: the amended theorem applied to `req9`, whose supplied
pageIndex "0" yields pageIndex 0 with itemsPerPage defaulted and zero
totals. -/
theorem Extract_pageInfo_invariant_witness :
    1 ≤ sp9.pageInfo.itemsPerPage ∧
    sp9.pageInfo.totalItemCount = 0 ∧ sp9.pageInfo.totalPageCount = 0 ∧
    sp9.pageInfo.pageIndex = 0 :=
  ⟨(Extract_pageInfo_invariant req9 sp9 rfl).1,
    (Extract_pageInfo_invariant req9 sp9 rfl).2.1,
    (Extract_pageInfo_invariant req9 sp9 rfl).2.2.1, rfl⟩

/-! ## `PagedQuery`: clause assembly -/

/-- The only error the scope loop produces is the bad-request error
interpolating the head of the original scope list. -/
theorem scopeLoop_error_shape (sj : List (String × JoinData π)) (fs : String)
    (cj : List (JoinView π)) (ss : List String) :
    ∀ (f w : String) (p : List π) (e : RestError),
      scopeLoop sj fs cj ss f w p = .error e →
      e = .badRequest ("Found unknown scope: '" ++ fs ++ "'.") := by
  induction ss with
  | nil => intro f w p e h; exact Except.noConfusion h
  | cons s rest ih =>
    intro f w p e h
    simp only [scopeLoop] at h
    rcases hl : sj.lookup s with _ | val
    · rw [hl] at h
      exact (Except.error.inj h).symm
    · rw [hl] at h
      exact ih _ _ _ _ h

/-- The only error the term loop produces is the bad-request error naming
some term. -/
theorem termLoop_error_shape (gen : String → List π → Except String (String × List π))
    (ts : List String) :
    ∀ (w : String) (p : List π) (e : RestError),
      termLoop gen ts w p = .error e →
      ∃ t, e = .badRequest ("Could not process search term: '" ++ t ++ "'.") := by
  induction ts with
  | nil => intro w p e h; exact Except.noConfusion h
  | cons t rest ih =>
    intro w p e h
    simp only [termLoop] at h
    rcases hg : gen t p with msg | ⟨wt, pn⟩
    · rw [hg] at h
      exact ⟨t, (Except.error.inj h).symm⟩
    · rw [hg] at h
      exact ih _ _ _ h

/-- Successful assembly decomposed: the scope loop, the term loop and the
sort lookup all succeed, and every field of the assembled value is the
source's expression over their outputs. -/
theorem PagedQueryAssemble_ok_shape (pqp : PagedQueryParameters π ρ σ)
    (cj : List (JoinData π)) (asm : Assembled π)
    (h : PagedQueryAssemble pqp cj = .ok asm) :
    ∃ f2 w2 p2 w3 p3 sortClause,
      scopeLoop pqp.scopeJoins (pqp.searchParams.scopes.headD "")
        (cj.map JoinData.view) pqp.searchParams.scopes
        (cj.foldl (fun f j => f ++ j.joinClause) pqp.generalFrom)
        (cj.foldl (fun w j => w ++ j.whereClause) "WHERE TRUE ")
        (cj.foldl (fun p j => p ++ j.joinParams) []) = .ok (f2, w2, p2) ∧
      termLoop pqp.searchWhereGenerator pqp.searchParams.terms w2 p2 = .ok (w3, p3) ∧
      pqp.sortMap.lookup pqp.searchParams.sort = some sortClause ∧
      asm = { fromBit := f2,
              whereBit := if w3 = "WHERE TRUE " then "" else w3,
              limitAndOrderBy := "ORDER BY " ++ sortClause ++ "LIMIT "
                ++ toString ((pqp.searchParams.pageInfo.pageIndex - 1)
                    * pqp.searchParams.pageInfo.itemsPerPage)
                ++ ", " ++ toString pqp.searchParams.pageInfo.itemsPerPage,
              stmt := "SELECT DISTINCT SQL_CALC_FOUND_ROWS " ++ pqp.fieldSpec
                ++ f2 ++ (if w3 = "WHERE TRUE " then "" else w3)
                ++ ("ORDER BY " ++ sortClause ++ "LIMIT "
                  ++ toString ((pqp.searchParams.pageInfo.pageIndex - 1)
                      * pqp.searchParams.pageInfo.itemsPerPage)
                  ++ ", " ++ toString pqp.searchParams.pageInfo.itemsPerPage),
              params := p3 } := by
  rcases hS : scopeLoop pqp.scopeJoins (pqp.searchParams.scopes.headD "")
      (cj.map JoinData.view) pqp.searchParams.scopes
      (cj.foldl (fun f j => f ++ j.joinClause) pqp.generalFrom)
      (cj.foldl (fun w j => w ++ j.whereClause) "WHERE TRUE ")
      (cj.foldl (fun p j => p ++ j.joinParams) []) with e0 | ⟨f2, w2, p2⟩
  · simp only [PagedQueryAssemble, hS] at h
    exact Except.noConfusion h
  · rcases hT : termLoop pqp.searchWhereGenerator pqp.searchParams.terms w2 p2
        with e1 | ⟨w3, p3⟩
    · simp only [PagedQueryAssemble, hS, hT] at h
      exact Except.noConfusion h
    · rcases hSort : pqp.sortMap.lookup pqp.searchParams.sort with _ | sortClause
      · simp only [PagedQueryAssemble, hS, hT, hSort] at h
        exact Except.noConfusion h
      · simp only [PagedQueryAssemble, hS, hT, hSort, Except.ok.injEq] at h
        exact ⟨f2, w2, p2, w3, p3, sortClause, hS, hT, rfl, h.symm⟩

/-- Classification of failed assembly: the error is either a bad-request
(unknown scope or rejected term), or exactly the unknown-sort
unprocessable error — in which case the sort key is indeed absent. -/
theorem PagedQueryAssemble_error_shape (pqp : PagedQueryParameters π ρ σ)
    (cj : List (JoinData π)) (e : RestError)
    (h : PagedQueryAssemble pqp cj = .error e) :
    (∃ m, e = .badRequest m) ∨
    (pqp.sortMap.lookup pqp.searchParams.sort = none ∧
      e = .unprocessableEntity ("Bad sort value: '" ++ pqp.searchParams.sort ++ "'.")) := by
  rcases hS : scopeLoop pqp.scopeJoins (pqp.searchParams.scopes.headD "")
      (cj.map JoinData.view) pqp.searchParams.scopes
      (cj.foldl (fun f j => f ++ j.joinClause) pqp.generalFrom)
      (cj.foldl (fun w j => w ++ j.whereClause) "WHERE TRUE ")
      (cj.foldl (fun p j => p ++ j.joinParams) []) with e0 | ⟨f2, w2, p2⟩
  · simp only [PagedQueryAssemble, hS, Except.error.injEq] at h
    subst h
    exact Or.inl ⟨_, scopeLoop_error_shape _ _ _ _ _ _ _ _ hS⟩
  · rcases hT : termLoop pqp.searchWhereGenerator pqp.searchParams.terms w2 p2
        with e1 | ⟨w3, p3⟩
    · simp only [PagedQueryAssemble, hS, hT, Except.error.injEq] at h
      subst h
      obtain ⟨t, ht⟩ := termLoop_error_shape _ _ _ _ _ hT
      exact Or.inl ⟨_, ht⟩
    · rcases hSort : pqp.sortMap.lookup pqp.searchParams.sort with _ | sortClause
      · simp only [PagedQueryAssemble, hS, hT, hSort, Except.error.injEq] at h
        subst h
        exact Or.inr ⟨rfl, rfl⟩
      · simp only [PagedQueryAssemble, hS, hT, hSort] at h
        exact Except.noConfusion h

/-- C4: whenever clause assembly succeeds, the assembled LIMIT clause is
`LIMIT (pageIndex − 1) * itemsPerPage, itemsPerPage`, appended to the
resolved ORDER BY clause. -/
theorem PagedQuery_limit_clause (pqp : PagedQueryParameters π ρ σ)
    (cj : List (JoinData π)) (asm : Assembled π)
    (h : PagedQueryAssemble pqp cj = .ok asm) :
    ∃ sortClause, pqp.sortMap.lookup pqp.searchParams.sort = some sortClause ∧
      asm.limitAndOrderBy = "ORDER BY " ++ sortClause ++ "LIMIT "
        ++ toString ((pqp.searchParams.pageInfo.pageIndex - 1)
            * pqp.searchParams.pageInfo.itemsPerPage)
        ++ ", " ++ toString pqp.searchParams.pageInfo.itemsPerPage := by
  obtain ⟨f2, w2, p2, w3, p3, sortClause, -, -, hSort, hasm⟩ :=
    PagedQueryAssemble_ok_shape pqp cj asm h
  exact ⟨sortClause, hSort, by rw [hasm]⟩

/-- C4 witness: page 2 at 20 per page yields `LIMIT 20, 20`. -/
theorem PagedQuery_limit_clause_witness :
    PagedQueryAssemble pqpW [] = .ok asmW ∧
    asmW.limitAndOrderBy = "ORDER BY t.id LIMIT 20, 20" := by
  refine ⟨rfl, ?_⟩
  obtain ⟨s, hs, h⟩ := PagedQuery_limit_clause pqpW [] asmW rfl
  have hs2 : some s = some "t.id " := hs.symm.trans rfl
  cases hs2
  rw [h]
  rfl

/-- C1 (code evidence): with scopes `["a", "b"]` where `"a"` is in the
scope map and `"b"` is not, `PagedQuery` does fail with a bad-request
error before any database interaction (the returned triple is the same
under an all-succeeding and an all-failing oracle), but the error message
names `"a"` — `Scopes[0]`, a known scope — instead of the first unknown
scope `"b"`. -/
theorem unknownScope_message_names_first_listed_scope :
    (pqpC1.scopeJoins.lookup "a").isSome = true ∧
    pqpC1.scopeJoins.lookup "b" = none ∧
    pqpC1.searchParams.scopes = ["a", "b"] ∧
    PagedQuery pqpC1 [] okDb = (none, -1, some (.badRequest "Found unknown scope: 'a'.")) ∧
    PagedQuery pqpC1 [] failDb = (none, -1, some (.badRequest "Found unknown scope: 'a'.")) :=
  ⟨rfl, rfl, rfl, rfl, rfl⟩

/-- C5 counterexample: `pqpC5` has a sort key absent from its sort map,
yet `PagedQuery` fails with the caller-input (bad-request) unknown-scope
error, not an unprocessable-value error, because the scope loop runs
before the sort lookup. -/
theorem unknownSort_preempted_by_unknownScope :
    pqpC5.sortMap.lookup pqpC5.searchParams.sort = none ∧
    PagedQuery pqpC5 [] okDb = (none, -1, some (.badRequest "Found unknown scope: 'x'.")) :=
  ⟨rfl, rfl⟩

/-- C5 (amended): when clause assembly raises no caller-input error (all
scopes known, all terms accepted) and the sort key is absent from the
sort map, `PagedQuery` fails with the unprocessable-value error — a
constructor distinct from the bad-request kind — and the returned triple
is the same for every database oracle (no transaction is begun). -/
theorem PagedQuery_unknown_sort_unprocessable (pqp : PagedQueryParameters π ρ σ)
    (cj : List (JoinData π))
    (hnb : ∀ m, PagedQueryAssemble pqp cj ≠ .error (.badRequest m))
    (hsort : pqp.sortMap.lookup pqp.searchParams.sort = none) :
    ∀ db, PagedQuery pqp cj db =
      (none, -1, some (.unprocessableEntity
        ("Bad sort value: '" ++ pqp.searchParams.sort ++ "'."))) := by
  intro db
  rcases hA : PagedQueryAssemble pqp cj with e | asm
  · rcases PagedQueryAssemble_error_shape pqp cj e hA with ⟨m, rfl⟩ | ⟨-, rfl⟩
    · exact absurd hA (hnb m)
    · simp [PagedQuery, hA]
  · obtain ⟨f2, w2, p2, w3, p3, sortClause, -, -, hSort, -⟩ :=
      PagedQueryAssemble_ok_shape pqp cj asm hA
    rw [hsort] at hSort
    exact Option.noConfusion hSort

/-- C5 witness: unknown sort key `"date"` with a known scope and no
terms — the unprocessable error, identically under a working and a
failing database oracle. -/
theorem PagedQuery_unknown_sort_unprocessable_witness :
    PagedQuery pqpW5 [] okDb
      = (none, -1, some (.unprocessableEntity "Bad sort value: 'date'.")) ∧
    PagedQuery pqpW5 [] failDb
      = (none, -1, some (.unprocessableEntity "Bad sort value: 'date'.")) :=
  ⟨PagedQuery_unknown_sort_unprocessable pqpW5 []
      (fun _ h => RestError.noConfusion (Except.error.inj h)) rfl okDb,
    PagedQuery_unknown_sort_unprocessable pqpW5 []
      (fun _ h => RestError.noConfusion (Except.error.inj h)) rfl failDb⟩

/-- C6: one step of the scope loop on a known scope: a defined join-test
returning `(true, override)` appends the override fragment to FROM in
place of the scope's default join fragment; a test returning `false`, or
no test, appends the default fragment; in all cases the scope's where
fragment and parameters are appended. -/
theorem scopeLoop_joinTest_override (sj : List (String × JoinData π))
    (fs scope : String) (cj : List (JoinView π)) (rest : List String)
    (f w : String) (p : List π) (val : JoinData π)
    (hval : sj.lookup scope = some val) :
    (∀ t o, val.joinTest = some t → t cj = (true, o) →
      scopeLoop sj fs cj (scope :: rest) f w p
        = scopeLoop sj fs cj rest (f ++ o) (w ++ val.whereClause) (p ++ val.joinParams)) ∧
    (∀ t o, val.joinTest = some t → t cj = (false, o) →
      scopeLoop sj fs cj (scope :: rest) f w p
        = scopeLoop sj fs cj rest (f ++ val.joinClause) (w ++ val.whereClause)
            (p ++ val.joinParams)) ∧
    (val.joinTest = none →
      scopeLoop sj fs cj (scope :: rest) f w p
        = scopeLoop sj fs cj rest (f ++ val.joinClause) (w ++ val.whereClause)
            (p ++ val.joinParams)) := by
  refine ⟨?_, ?_, ?_⟩
  · intro t o ht hres
    simp [scopeLoop, hval, ht, hres]
  · intro t o ht hres
    simp [scopeLoop, hval, ht, hres]
  · intro ht
    simp [scopeLoop, hval, ht]

/-- C6 witness: the join-test of `jdT` fires against one context join, so
the step appends `"OVERRIDE "` — not `jdT`'s own `"JOIN d "` — together
with `jdT`'s where fragment and parameter. -/
theorem scopeLoop_joinTest_override_witness :
    scopeLoop [("s", jdT)] "s" [jdA.view] ["s"] "F " "W " []
      = scopeLoop [("s", jdT)] "s" [jdA.view] []
          ("F " ++ "OVERRIDE ") ("W " ++ jdT.whereClause) ([] ++ jdT.joinParams) :=
  (scopeLoop_joinTest_override [("s", jdT)] "s" "s" [jdA.view] [] "F " "W " [] jdT rfl).1
    (fun ctx => (ctx.length == 1, "OVERRIDE ")) "OVERRIDE " rfl rfl

/-! ## `PagedQuery`: error counts (C10) -/

/-- C10: every error return of `PagedQuery` carries a nil result; a
clause-assembly error is returned with count −1 before any database
call, while every error once assembly has succeeded — the transaction
phase — is a `ServerError` returned with count 0. -/
theorem PagedQuery_error_counts (pqp : PagedQueryParameters π ρ σ)
    (cj : List (JoinData π)) (db : DbOracle π σ) :
    (∀ e, PagedQueryAssemble pqp cj = .error e →
      PagedQuery pqp cj db = (none, -1, some e)) ∧
    (∀ asm res cnt err, PagedQueryAssemble pqp cj = .ok asm →
      PagedQuery pqp cj db = (res, cnt, some err) →
      res = none ∧ cnt = 0 ∧ ∃ m, err = .serverError m) := by
  constructor
  · intro e he
    simp [PagedQuery, he]
  · intro asm res cnt err hA hP
    simp only [PagedQuery, hA] at hP
    repeat' split at hP
    all_goals
      injection hP with h1 hrest
    all_goals
      injection hrest with h2 h3
    all_goals
      first
        | exact Option.noConfusion h3
        | exact ⟨h1.symm, h2.symm, _, (Option.some.inj h3).symm⟩

/-- C10 witness: a rejected search term (caller-input error during
assembly) returns count −1 and no result; a failing transaction on a
successfully assembled query returns count 0, no result and a
`ServerError`. -/
theorem PagedQuery_error_counts_witness :
    PagedQuery pqpC10 [] okDb
      = (none, -1, some (.badRequest "Could not process search term: 'w'.")) ∧
    PagedQuery pqpW [] failDb
      = (none, 0, some (.serverError "Could not retrieve things.")) :=
  ⟨(PagedQuery_error_counts pqpC10 [] okDb).1 _ rfl, rfl⟩

/-! ## `PagedQuery`: determinism and accumulation order (C7) -/

theorem strConcat_cons (a : String) (l : List String) :
    strConcat (a :: l) = a ++ strConcat l := rfl

/-- Folding `acc ++ g x` from seed `s` appends the concatenation of the
fragments, in list order, to `s`. -/
theorem foldl_append_str (g : α → String) (l : List α) :
    ∀ s, l.foldl (fun acc x => acc ++ g x) s = s ++ strConcat (l.map g) := by
  induction l with
  | nil => intro s; simp [strConcat, String.append_empty]
  | cons a l ih =>
    intro s
    simp only [List.foldl, List.map]
    rw [ih, strConcat_cons, String.append_assoc]

/-- List-valued version of `foldl_append_str`: the parameters accumulate
in list order. -/
theorem foldl_append_list (g : α → List β) (l : List α) :
    ∀ s, l.foldl (fun acc x => acc ++ g x) s = s ++ (l.map g).flatten := by
  induction l with
  | nil => intro s; simp
  | cons a l ih =>
    intro s
    simp only [List.foldl, List.map, List.flatten_cons]
    rw [ih, List.append_assoc]

/-- The scope loop's effect factors as appending suffixes — determined by
the scope list, the scope map and the context joins alone — to the three
accumulators. -/
theorem scopeLoop_shift (sj : List (String × JoinData π)) (fs : String)
    (cj : List (JoinView π)) (ss : List String) :
    ∀ (f w : String) (p : List π),
      scopeLoop sj fs cj ss f w p
        = (scopeLoop sj fs cj ss "" "" []).map
            (fun x => (f ++ x.1, w ++ x.2.1, p ++ x.2.2)) := by
  induction ss with
  | nil =>
    intro f w p
    simp [scopeLoop, Except.map, String.append_empty]
  | cons s rest ih =>
    intro f w p
    rcases hl : sj.lookup s with _ | val
    · simp [scopeLoop, hl, Except.map]
    · rcases hjt : val.joinTest with _ | test
      · simp only [scopeLoop, hl, hjt]
        rw [ih (f ++ val.joinClause) (w ++ val.whereClause) (p ++ val.joinParams),
          ih ("" ++ val.joinClause) ("" ++ val.whereClause) ([] ++ val.joinParams)]
        cases scopeLoop sj fs cj rest "" "" [] <;>
          simp [Except.map, String.append_assoc, String.empty_append, List.append_assoc]
      · rcases hres : test cj with ⟨useIt, o⟩
        cases useIt
        · simp only [scopeLoop, hl, hjt, hres, Bool.false_eq_true, if_false]
          rw [ih (f ++ val.joinClause) (w ++ val.whereClause) (p ++ val.joinParams),
            ih ("" ++ val.joinClause) ("" ++ val.whereClause) ([] ++ val.joinParams)]
          cases scopeLoop sj fs cj rest "" "" [] <;>
            simp [Except.map, String.append_assoc, String.empty_append, List.append_assoc]
        · simp only [scopeLoop, hl, hjt, hres, if_true]
          rw [ih (f ++ o) (w ++ val.whereClause) (p ++ val.joinParams),
            ih ("" ++ o) ("" ++ val.whereClause) ([] ++ val.joinParams)]
          cases scopeLoop sj fs cj rest "" "" [] <;>
            simp [Except.map, String.append_assoc, String.empty_append, List.append_assoc]

/-- The term loop's effect factors as appending a where-suffix to the
accumulator; the parameter list it returns depends only on the terms,
the generator and the starting parameters. -/
theorem termLoop_shift (gen : String → List π → Except String (String × List π))
    (ts : List String) :
    ∀ (w : String) (p : List π),
      termLoop gen ts w p
        = (termLoop gen ts "" p).map (fun x => (w ++ x.1, x.2)) := by
  induction ts with
  | nil =>
    intro w p
    simp [termLoop, Except.map, String.append_empty]
  | cons t rest ih =>
    intro w p
    rcases hg : gen t p with msg | ⟨wt, pn⟩
    · simp [termLoop, hg, Except.map]
    · simp only [termLoop, hg]
      rw [ih (w ++ wt) pn, ih ("" ++ wt) pn]
      cases termLoop gen rest "" pn <;>
        simp [Except.map, String.append_assoc, String.empty_append]

/-- C7: `PagedQueryAssemble` is a pure function of the descriptor, the
search params and the context joins — two invocations agree — and on
success the statement decomposes in the source's accumulation order:
FROM is the base clause, then the context joins' fragments in caller
order, then the scopes' fragments in `SearchParams` order; WHERE is the
tautology seed, then the context joins' fragments, then the scopes', then
the search terms'; the bound parameters are the context joins' (caller
order) then the scopes' (scope order), as transformed by the term
generator term-by-term; and the statement is the concatenation of the
SELECT head, field list, FROM, WHERE and ORDER-BY/LIMIT pieces. -/
theorem PagedQueryAssemble_deterministic_ordered (pqp : PagedQueryParameters π ρ σ)
    (cj : List (JoinData π)) :
    PagedQueryAssemble pqp cj = PagedQueryAssemble pqp cj ∧
    ∀ asm, PagedQueryAssemble pqp cj = .ok asm →
      ∃ sF sW sP tW tP sortClause,
        scopeLoop pqp.scopeJoins (pqp.searchParams.scopes.headD "")
          (cj.map JoinData.view) pqp.searchParams.scopes "" "" [] = .ok (sF, sW, sP) ∧
        termLoop pqp.searchWhereGenerator pqp.searchParams.terms ""
          ((cj.map (fun j => j.joinParams)).flatten ++ sP) = .ok (tW, tP) ∧
        pqp.sortMap.lookup pqp.searchParams.sort = some sortClause ∧
        asm.fromBit = pqp.generalFrom ++ strConcat (cj.map (fun j => j.joinClause)) ++ sF ∧
        asm.params = tP ∧
        (asm.whereBit = "" ∨
          asm.whereBit
            = "WHERE TRUE " ++ strConcat (cj.map (fun j => j.whereClause)) ++ sW ++ tW) ∧
        asm.stmt = "SELECT DISTINCT SQL_CALC_FOUND_ROWS " ++ pqp.fieldSpec
          ++ asm.fromBit ++ asm.whereBit ++ asm.limitAndOrderBy := by
  refine ⟨rfl, ?_⟩
  intro asm h
  obtain ⟨f2, w2, p2, w3, p3, sortClause, hS, hT, hSort, hasm⟩ :=
    PagedQueryAssemble_ok_shape pqp cj asm h
  rw [scopeLoop_shift] at hS
  rcases hc : scopeLoop pqp.scopeJoins (pqp.searchParams.scopes.headD "")
      (cj.map JoinData.view) pqp.searchParams.scopes "" "" [] with e | ⟨sF, sW, sP⟩
  · rw [hc] at hS
    exact Except.noConfusion hS
  · rw [hc] at hS
    simp only [Except.map, Except.ok.injEq, Prod.mk.injEq] at hS
    obtain ⟨hf2, hw2, hp2⟩ := hS
    have hp2' : p2 = (cj.map (fun j => j.joinParams)).flatten ++ sP := by
      rw [← hp2, foldl_append_list]
      simp
    rw [termLoop_shift] at hT
    rcases ht2 : termLoop pqp.searchWhereGenerator pqp.searchParams.terms "" p2
        with e | ⟨tW, tP⟩
    · rw [ht2] at hT
      exact Except.noConfusion hT
    · rw [ht2] at hT
      simp only [Except.map, Except.ok.injEq, Prod.mk.injEq] at hT
      obtain ⟨hw3, hp3⟩ := hT
      subst hasm
      refine ⟨sF, sW, sP, tW, tP, sortClause, rfl, hp2' ▸ ht2, hSort, ?_, hp3.symm, ?_, rfl⟩
      · rw [← hf2, foldl_append_str]
      · by_cases h0 : w3 = "WHERE TRUE "
        · exact Or.inl (by simp [h0])
        · refine Or.inr ?_
          show (if w3 = "WHERE TRUE " then "" else w3) = _
          rw [if_neg h0, ← hw3, ← hw2, foldl_append_str]

/-- C7 witness: the theorem applied to `pqpW` with no context joins; the
assembled `asmW` decomposes as base FROM + scope fragment, tautology
WHERE + scope fragment + term fragment, and the scope's parameter
followed by the generator-appended term parameter. -/
theorem PagedQueryAssemble_deterministic_ordered_witness :
    ∃ sF sW sP tW tP sortClause,
      scopeLoop pqpW.scopeJoins (pqpW.searchParams.scopes.headD "")
        (([] : List (JoinData Nat)).map JoinData.view) pqpW.searchParams.scopes "" "" []
        = .ok (sF, sW, sP) ∧
      termLoop pqpW.searchWhereGenerator pqpW.searchParams.terms ""
        ((([] : List (JoinData Nat)).map (fun j => j.joinParams)).flatten ++ sP)
        = .ok (tW, tP) ∧
      pqpW.sortMap.lookup pqpW.searchParams.sort = some sortClause ∧
      asmW.fromBit = pqpW.generalFrom
        ++ strConcat (([] : List (JoinData Nat)).map (fun j => j.joinClause)) ++ sF ∧
      asmW.params = tP ∧
      (asmW.whereBit = "" ∨
        asmW.whereBit = "WHERE TRUE "
          ++ strConcat (([] : List (JoinData Nat)).map (fun j => j.whereClause)) ++ sW ++ tW) ∧
      asmW.stmt = "SELECT DISTINCT SQL_CALC_FOUND_ROWS " ++ pqpW.fieldSpec
        ++ asmW.fromBit ++ asmW.whereBit ++ asmW.limitAndOrderBy :=
  (PagedQueryAssemble_deterministic_ordered pqpW []).2 asmW rfl

end GoSearch
